import Mathlib

/-!
Verification of the HC-SR04 sonar driver (src/src/main/drivers/sonar_hcsr04.c).

The driver keeps module-level state written by three entry points:
`hcsr04_start_reading` (trigger controller), `hcsr04_extiHandler`
(interrupt-driven echo capture) and `hcsr04_get_distance` (distance
estimator).  We embed that state as an explicit record and each entry
point as a pure state-transformer taking the clock readings it would
obtain from `millis()` / `micros()` as arguments.

Millisecond and microsecond clock readings are 32-bit unsigned values
(the source stores one in a `volatile uint32_t`); arithmetic on them is
performed modulo 2^32 exactly where the C code performs `uint32`
arithmetic.
-/

/-- 2^32, the modulus of the driver's 32-bit unsigned timestamp arithmetic. -/
def U32 : Nat := 4294967296

/-- `HCSR04_MAX_RANGE_CM` (line 41 of the source). -/
def HCSR04_MAX_RANGE_CM : Int := 400

/-- `HCSR04_MinimumFiringIntervalMs` (line 98 of the source). -/
def HCSR04_MinimumFiringIntervalMs : Nat := 60

/-- Modelled from the spec: `RANGEFINDER_OUT_OF_RANGE` is defined in
`drivers/rangefinder.h`, which is not under `src/`.  The spec describes it
as one of "two sentinel integer codes", distinct from every centimetre
value in `[0, 400]` ("no negative non-sentinel distance" implies the
sentinels are the negative codes). -/
def RANGEFINDER_OUT_OF_RANGE : Int := -1

/-- Modelled from the spec: `RANGEFINDER_HARDWARE_FAILURE` is defined in
`drivers/rangefinder.h`, which is not under `src/`.  The second sentinel
integer code, distinct from `RANGEFINDER_OUT_OF_RANGE` and from every
centimetre value in `[0, 400]`. -/
def RANGEFINDER_HARDWARE_FAILURE : Int := -2

/-- The driver's mutable state: the module-level variables of
sonar_hcsr04.c together with the two function-local `static` variables.

`hcsr04SonarPulseTravelTime` has C type `timeDelta_t`, whose definition
(in `common/time.h`) is not under `src/`; modelled from the spec, which
calls it a `Duration(µs)` holding the elapsed microseconds between the
rising and the falling echo edge, it is a natural number.

`triggerPulsesEmitted` counts the trigger pulses driven on the trigger
output line (the `IOHi`/`delayMicroseconds(11)`/`IOLo` sequence), so that
"no pulse is emitted" is observable in the model. -/
structure HCSR04State where
  hcsr04SonarPulseTravelTime : Nat
  lastMeasurementReceivedAt : Nat
  lastMeasurementStartedAt : Nat
  lastCalculatedDistance : Int
  timing_start : Nat
  triggerPulsesEmitted : Nat
  deriving Repr, DecidableEq

/-- The state at program start: `hcsr04SonarPulseTravelTime = 0` and
`lastMeasurementStartedAt = 0` are initialised explicitly (lines 55, 57);
`lastMeasurementReceivedAt` is an uninitialised `static`, hence zero;
the `static` local `lastCalculatedDistance` is initialised to
`RANGEFINDER_OUT_OF_RANGE` (line 121); the `static` local `timing_start`
is an uninitialised `static`, hence zero; no pulse has been emitted. -/
def initialState : HCSR04State :=
  { hcsr04SonarPulseTravelTime := 0
    lastMeasurementReceivedAt := 0
    lastMeasurementStartedAt := 0
    lastCalculatedDistance := RANGEFINDER_OUT_OF_RANGE
    timing_start := 0
    triggerPulsesEmitted := 0 }

/-- `hcsr04_init` (lines 84–86): an empty function body. -/
def hcsr04_init (s : HCSR04State) : HCSR04State := s

/-- `hcsr04_start_reading` (lines 93–113).  `nowMs` is the value
`millis()` returns (a `uint32`, so reduced mod 2^32).  The comparison
`timeNowMs > lastMeasurementStartedAt + HCSR04_MinimumFiringIntervalMs`
is `uint32` arithmetic, hence the sum is taken mod 2^32.  When the test
passes, `lastMeasurementStartedAt` is set to the current time and the
fixed trigger sequence drives one pulse on the trigger line. -/
def hcsr04_start_reading (nowMs : Nat) (s : HCSR04State) : HCSR04State :=
  let timeNowMs := nowMs % U32
  if timeNowMs > (s.lastMeasurementStartedAt + HCSR04_MinimumFiringIntervalMs) % U32 then
    { s with lastMeasurementStartedAt := timeNowMs
             triggerPulsesEmitted := s.triggerPulsesEmitted + 1 }
  else s

/-- `hcsr04_extiHandler` (lines 67–81).  `echoHigh` is the result of
`IORead(echoIO) != 0`; `nowUs` and `nowMs` are the `micros()` and
`millis()` readings (each a `uint32`, reduced mod 2^32).  On a rising
edge the microsecond timestamp is latched into `timing_start`; on a
falling edge, if `timing_stop > timing_start` (a `uint32` comparison),
both `lastMeasurementReceivedAt` and `hcsr04SonarPulseTravelTime` are
published; otherwise nothing changes. -/
def hcsr04_extiHandler (echoHigh : Bool) (nowUs nowMs : Nat) (s : HCSR04State) : HCSR04State :=
  if echoHigh then
    { s with timing_start := nowUs % U32 }
  else
    let timing_stop := nowUs % U32
    if timing_stop > s.timing_start then
      { s with lastMeasurementReceivedAt := nowMs % U32
               hcsr04SonarPulseTravelTime := timing_stop - s.timing_start }
    else s

/-- `hcsr04_get_distance` (lines 118–148).  Returns the `int32_t` result
together with the updated state.  The three branches mirror the source:
fresh measurement (`lastMeasurementReceivedAt > lastMeasurementStartedAt`),
timeout (`(timeNowMs - lastMeasurementStartedAt) > 60`, a `uint32`
subtraction computed mod 2^32), or cached value. -/
def hcsr04_get_distance (nowMs : Nat) (s : HCSR04State) : Int × HCSR04State :=
  let timeNowMs := nowMs % U32
  if s.lastMeasurementReceivedAt > s.lastMeasurementStartedAt then
    let d0 : Int := (s.hcsr04SonarPulseTravelTime / 59 : Nat)
    let d : Int := if d0 > HCSR04_MAX_RANGE_CM then RANGEFINDER_OUT_OF_RANGE else d0
    (d, { s with lastCalculatedDistance := d })
  else if (timeNowMs + U32 - s.lastMeasurementStartedAt) % U32 > HCSR04_MinimumFiringIntervalMs then
    (RANGEFINDER_HARDWARE_FAILURE, { s with lastCalculatedDistance := RANGEFINDER_HARDWARE_FAILURE })
  else
    (s.lastCalculatedDistance, s)

/-- A value a `DistanceReading` may take: a centimetre value in
`[0, HCSR04_MAX_RANGE_CM]` or one of the two sentinels. -/
def validDistanceReading (d : Int) : Prop :=
  (0 ≤ d ∧ d ≤ HCSR04_MAX_RANGE_CM) ∨ d = RANGEFINDER_OUT_OF_RANGE ∨ d = RANGEFINDER_HARDWARE_FAILURE

instance (d : Int) : Decidable (validDistanceReading d) := by
  unfold validDistanceReading; infer_instance

/-- States reachable by any interleaving of the three entry points from
the initial state, with arbitrary clock readings and edge polarities. -/
inductive Reachable : HCSR04State → Prop
  | init : Reachable initialState
  | start (s : HCSR04State) (nowMs : Nat) : Reachable s → Reachable (hcsr04_start_reading nowMs s)
  | exti (s : HCSR04State) (echoHigh : Bool) (nowUs nowMs : Nat) :
      Reachable s → Reachable (hcsr04_extiHandler echoHigh nowUs nowMs s)
  | read (s : HCSR04State) (nowMs : Nat) : Reachable s → Reachable (hcsr04_get_distance nowMs s).2

/-- Claim C1: a fresh travel time `T` with `0 < T ≤ 59 × 400` yields
`distance = T / 59` (integer division), this value lies in `[0, 400]`,
and it is stored as the cached last distance. -/
theorem getDistance_fresh_inRange (nowMs : Nat) (s : HCSR04State)
    (hfresh : s.lastMeasurementReceivedAt > s.lastMeasurementStartedAt)
    (hpos : 0 < s.hcsr04SonarPulseTravelTime)
    (hle : s.hcsr04SonarPulseTravelTime ≤ 59 * 400) :
    (hcsr04_get_distance nowMs s).1 = (s.hcsr04SonarPulseTravelTime / 59 : Nat) ∧
    0 ≤ (hcsr04_get_distance nowMs s).1 ∧
    (hcsr04_get_distance nowMs s).1 ≤ 400 ∧
    (hcsr04_get_distance nowMs s).2.lastCalculatedDistance = (hcsr04_get_distance nowMs s).1 := by
  have hdiv : s.hcsr04SonarPulseTravelTime / 59 ≤ 400 := by omega
  simp only [hcsr04_get_distance, if_pos hfresh, HCSR04_MAX_RANGE_CM, RANGEFINDER_OUT_OF_RANGE]
  have hnotgt : ¬ ((s.hcsr04SonarPulseTravelTime / 59 : Nat) : Int) > 400 := by
    push_neg
    exact_mod_cast hdiv
  simp only [if_neg hnotgt]
  refine ⟨trivial, by positivity, by exact_mod_cast hdiv, trivial⟩

/-- Witness for C1: a concrete fresh state with travel time 290 µs
returns 4 cm (the spec's own scenario). -/
theorem getDistance_fresh_inRange_witness :
    (hcsr04_get_distance 6
      { hcsr04SonarPulseTravelTime := 290
        lastMeasurementReceivedAt := 6
        lastMeasurementStartedAt := 0
        lastCalculatedDistance := RANGEFINDER_OUT_OF_RANGE
        timing_start := 5000
        triggerPulsesEmitted := 1 }).1 = 4 := by
  have h := getDistance_fresh_inRange 6
      { hcsr04SonarPulseTravelTime := 290
        lastMeasurementReceivedAt := 6
        lastMeasurementStartedAt := 0
        lastCalculatedDistance := RANGEFINDER_OUT_OF_RANGE
        timing_start := 5000
        triggerPulsesEmitted := 1 }
      (by decide) (by decide) (by decide)
  rw [h.1]
  decide

/-- Counterexample to claim C2 as stated: with a fresh measurement whose
travel time is `T = 23601 > 59 × 400 = 23600`, `hcsr04_get_distance`
returns `23601 / 59 = 400` — an in-range centimetre value — not the
`OUT_OF_RANGE` sentinel, because the source compares the divided
distance (`400`), not the travel time, against the maximum range. -/
theorem getDistance_fresh_boundary_cex :
    (23601 > 59 * 400 ∧
      ({ hcsr04SonarPulseTravelTime := 23601
         lastMeasurementReceivedAt := 6
         lastMeasurementStartedAt := 0
         lastCalculatedDistance := RANGEFINDER_OUT_OF_RANGE
         timing_start := 0
         triggerPulsesEmitted := 1 } : HCSR04State).lastMeasurementReceivedAt >
      ({ hcsr04SonarPulseTravelTime := 23601
         lastMeasurementReceivedAt := 6
         lastMeasurementStartedAt := 0
         lastCalculatedDistance := RANGEFINDER_OUT_OF_RANGE
         timing_start := 0
         triggerPulsesEmitted := 1 } : HCSR04State).lastMeasurementStartedAt) ∧
    (hcsr04_get_distance 6
      { hcsr04SonarPulseTravelTime := 23601
        lastMeasurementReceivedAt := 6
        lastMeasurementStartedAt := 0
        lastCalculatedDistance := RANGEFINDER_OUT_OF_RANGE
        timing_start := 0
        triggerPulsesEmitted := 1 }).1 = 400 ∧
    (hcsr04_get_distance 6
      { hcsr04SonarPulseTravelTime := 23601
        lastMeasurementReceivedAt := 6
        lastMeasurementStartedAt := 0
        lastCalculatedDistance := RANGEFINDER_OUT_OF_RANGE
        timing_start := 0
        triggerPulsesEmitted := 1 }).1 ≠ RANGEFINDER_OUT_OF_RANGE := by
  refine ⟨⟨by decide, by decide⟩, ?_, ?_⟩ <;> decide

/-- Claim C2 as amended: a fresh measurement whose travel time `T`
satisfies `T ≥ 59 × 401` (equivalently `T / 59 > 400`) makes
`hcsr04_get_distance` return the `OUT_OF_RANGE` sentinel. -/
theorem getDistance_fresh_outOfRange (nowMs : Nat) (s : HCSR04State)
    (hfresh : s.lastMeasurementReceivedAt > s.lastMeasurementStartedAt)
    (hge : 59 * 401 ≤ s.hcsr04SonarPulseTravelTime) :
    (hcsr04_get_distance nowMs s).1 = RANGEFINDER_OUT_OF_RANGE := by
  have hdiv : 401 ≤ s.hcsr04SonarPulseTravelTime / 59 := by omega
  have hgt : ((s.hcsr04SonarPulseTravelTime / 59 : Nat) : Int) > 400 := by exact_mod_cast hdiv
  simp only [hcsr04_get_distance, if_pos hfresh, HCSR04_MAX_RANGE_CM]
  rw [if_pos hgt]

/-- Witness for the amended C2: travel time `23659 = 59 × 401` is fresh
and reported as `OUT_OF_RANGE`. -/
theorem getDistance_fresh_outOfRange_witness :
    (hcsr04_get_distance 6
      { hcsr04SonarPulseTravelTime := 23659
        lastMeasurementReceivedAt := 6
        lastMeasurementStartedAt := 0
        lastCalculatedDistance := RANGEFINDER_OUT_OF_RANGE
        timing_start := 0
        triggerPulsesEmitted := 1 }).1 = RANGEFINDER_OUT_OF_RANGE :=
  getDistance_fresh_outOfRange 6
    { hcsr04SonarPulseTravelTime := 23659
      lastMeasurementReceivedAt := 6
      lastMeasurementStartedAt := 0
      lastCalculatedDistance := RANGEFINDER_OUT_OF_RANGE
      timing_start := 0
      triggerPulsesEmitted := 1 }
    (by decide) (by decide)

/-- Counterexample to claim C3's final sentence as stated: two calls to
`hcsr04_start_reading` 40 ms apart (at 30 ms and 70 ms, from the initial
state whose `lastMeasurementStartedAt` is 0).  The first call is itself
rate-limited (30 ≤ 0 + 60, a no-op), so the second call at 70 ms passes
the `70 > 0 + 60` test: it changes `lastMeasurementStartedAt` and emits
a pulse even though only 40 ms separate the two calls. -/
theorem startReading_within60_cex :
    70 - 30 ≤ 60 ∧
    (hcsr04_start_reading 70 (hcsr04_start_reading 30 initialState)).lastMeasurementStartedAt ≠
      (hcsr04_start_reading 30 initialState).lastMeasurementStartedAt ∧
    (hcsr04_start_reading 70 (hcsr04_start_reading 30 initialState)).triggerPulsesEmitted ≠
      (hcsr04_start_reading 30 initialState).triggerPulsesEmitted := by
  refine ⟨by decide, ?_, ?_⟩ <;> decide

/-- Claim C3 as amended: at current time `now` (no 32-bit wraparound in
play), `hcsr04_start_reading` is a no-op when
`now ≤ lastMeasurementStartedAt + 60`, and otherwise sets
`lastMeasurementStartedAt := now` and emits exactly one trigger pulse;
consequently two calls within 60 ms of each other, *the first of which
emits a pulse*, leave `lastMeasurementStartedAt` unchanged on the
second call. -/
theorem startReading_rateLimit (s : HCSR04State) (now t1 t2 : Nat)
    (hnow : now < U32) (hs : s.lastMeasurementStartedAt + 60 < U32)
    (ht1 : t1 + 60 < U32) (ht2 : t2 < U32) :
    (now ≤ s.lastMeasurementStartedAt + 60 → hcsr04_start_reading now s = s) ∧
    (now > s.lastMeasurementStartedAt + 60 →
      hcsr04_start_reading now s =
        { s with lastMeasurementStartedAt := now
                 triggerPulsesEmitted := s.triggerPulsesEmitted + 1 }) ∧
    (t1 > s.lastMeasurementStartedAt + 60 → t2 ≤ t1 + 60 →
      hcsr04_start_reading t2 (hcsr04_start_reading t1 s) = hcsr04_start_reading t1 s) := by
  have ht1' : t1 < U32 := by omega
  have hmod : ∀ t : Nat, t < U32 → t % U32 = t := fun t ht => Nat.mod_eq_of_lt ht
  have hsum : (s.lastMeasurementStartedAt + 60) % U32 = s.lastMeasurementStartedAt + 60 :=
    hmod _ hs
  refine ⟨?_, ?_, ?_⟩
  · intro h
    simp only [hcsr04_start_reading, HCSR04_MinimumFiringIntervalMs, hmod now hnow, hsum]
    rw [if_neg (by omega)]
  · intro h
    simp only [hcsr04_start_reading, HCSR04_MinimumFiringIntervalMs, hmod now hnow, hsum]
    rw [if_pos (by omega)]
  · intro h1 h2
    have e1 : hcsr04_start_reading t1 s =
        { s with lastMeasurementStartedAt := t1
                 triggerPulsesEmitted := s.triggerPulsesEmitted + 1 } := by
      simp only [hcsr04_start_reading, HCSR04_MinimumFiringIntervalMs, hmod t1 ht1', hsum]
      rw [if_pos (by omega)]
    rw [e1]
    simp only [hcsr04_start_reading, HCSR04_MinimumFiringIntervalMs, hmod t2 ht2,
      hmod (t1 + 60) ht1]
    rw [if_neg (by omega)]

/-- Witness for the amended C3: from the initial state, a call at 100 ms
fires (the state records the new timestamp), and a second call at 130 ms
— within 60 ms of the first — is a no-op. -/
theorem startReading_rateLimit_witness :
    hcsr04_start_reading 130 (hcsr04_start_reading 100 initialState) =
      hcsr04_start_reading 100 initialState := by
  have h := startReading_rateLimit initialState 100 100 130
    (by decide) (by decide) (by decide) (by decide)
  exact h.2.2 (by decide) (by decide)

/-- Claim C4: with no fresh measurement (`receivedAt ≤ startedAt`) and
`now - lastMeasurementStartedAt ≤ 60` (monotonic time, no 32-bit
wraparound), `hcsr04_get_distance` returns the cached
`lastCalculatedDistance` and leaves the whole state unchanged. -/
theorem getDistance_stale_withinWindow (nowMs : Nat) (s : HCSR04State)
    (hstale : s.lastMeasurementReceivedAt ≤ s.lastMeasurementStartedAt)
    (hmono : s.lastMeasurementStartedAt ≤ nowMs) (hnow : nowMs < U32)
    (hwin : nowMs - s.lastMeasurementStartedAt ≤ 60) :
    hcsr04_get_distance nowMs s = (s.lastCalculatedDistance, s) := by
  have h1 : ¬ (s.lastMeasurementReceivedAt > s.lastMeasurementStartedAt) := by omega
  have h2 : ¬ ((nowMs % U32 + U32 - s.lastMeasurementStartedAt) % U32 >
      HCSR04_MinimumFiringIntervalMs) := by
    simp only [U32, HCSR04_MinimumFiringIntervalMs] at *
    omega
  simp only [hcsr04_get_distance, if_neg h1, if_neg h2]

/-- Witness for C4: a trigger fired at 10 ms with no echo since; a read
at 40 ms (30 ms later) returns the value cached before the trigger and
changes nothing. -/
theorem getDistance_stale_withinWindow_witness :
    hcsr04_get_distance 40
      { hcsr04SonarPulseTravelTime := 290
        lastMeasurementReceivedAt := 6
        lastMeasurementStartedAt := 10
        lastCalculatedDistance := 4
        timing_start := 5000
        triggerPulsesEmitted := 2 } =
    (4, { hcsr04SonarPulseTravelTime := 290
          lastMeasurementReceivedAt := 6
          lastMeasurementStartedAt := 10
          lastCalculatedDistance := 4
          timing_start := 5000
          triggerPulsesEmitted := 2 }) :=
  getDistance_stale_withinWindow 40
    { hcsr04SonarPulseTravelTime := 290
      lastMeasurementReceivedAt := 6
      lastMeasurementStartedAt := 10
      lastCalculatedDistance := 4
      timing_start := 5000
      triggerPulsesEmitted := 2 }
    (by decide) (by decide) (by decide) (by decide)

/-- Claim C5: with no fresh measurement and
`now - lastMeasurementStartedAt > 60` (monotonic time, no 32-bit
wraparound), `hcsr04_get_distance` returns `HARDWARE_FAILURE` and
overwrites the cache with it; moreover, from any state whose cache holds
`HARDWARE_FAILURE` and which has no fresh measurement, every subsequent
call returns `HARDWARE_FAILURE` again. -/
theorem getDistance_stale_timeout (nowMs : Nat) (s : HCSR04State)
    (hstale : s.lastMeasurementReceivedAt ≤ s.lastMeasurementStartedAt)
    (hmono : s.lastMeasurementStartedAt ≤ nowMs) (hnow : nowMs < U32)
    (hlate : nowMs - s.lastMeasurementStartedAt > 60) :
    hcsr04_get_distance nowMs s =
      (RANGEFINDER_HARDWARE_FAILURE,
        { s with lastCalculatedDistance := RANGEFINDER_HARDWARE_FAILURE }) ∧
    (∀ s' : HCSR04State, s'.lastCalculatedDistance = RANGEFINDER_HARDWARE_FAILURE →
      s'.lastMeasurementReceivedAt ≤ s'.lastMeasurementStartedAt →
      ∀ n : Nat, (hcsr04_get_distance n s').1 = RANGEFINDER_HARDWARE_FAILURE) := by
  constructor
  · have h1 : ¬ (s.lastMeasurementReceivedAt > s.lastMeasurementStartedAt) := by omega
    have h2 : (nowMs % U32 + U32 - s.lastMeasurementStartedAt) % U32 >
        HCSR04_MinimumFiringIntervalMs := by
      simp only [U32, HCSR04_MinimumFiringIntervalMs] at *
      omega
    simp only [hcsr04_get_distance, if_neg h1, if_pos h2]
  · intro s' hcache hstale' n
    have h1 : ¬ (s'.lastMeasurementReceivedAt > s'.lastMeasurementStartedAt) := by omega
    simp only [hcsr04_get_distance, if_neg h1]
    split
    · rfl
    · exact hcache

/-- Witness for C5: a trigger fired at 10 ms, no echo; a read at 71 ms
(61 ms later) reports and caches `HARDWARE_FAILURE`. -/
theorem getDistance_stale_timeout_witness :
    hcsr04_get_distance 71
      { hcsr04SonarPulseTravelTime := 290
        lastMeasurementReceivedAt := 6
        lastMeasurementStartedAt := 10
        lastCalculatedDistance := 4
        timing_start := 5000
        triggerPulsesEmitted := 2 } =
    (RANGEFINDER_HARDWARE_FAILURE,
      { hcsr04SonarPulseTravelTime := 290
        lastMeasurementReceivedAt := 6
        lastMeasurementStartedAt := 10
        lastCalculatedDistance := RANGEFINDER_HARDWARE_FAILURE
        timing_start := 5000
        triggerPulsesEmitted := 2 }) :=
  (getDistance_stale_timeout 71
    { hcsr04SonarPulseTravelTime := 290
      lastMeasurementReceivedAt := 6
      lastMeasurementStartedAt := 10
      lastCalculatedDistance := 4
      timing_start := 5000
      triggerPulsesEmitted := 2 }
    (by decide) (by decide) (by decide) (by decide)).1

/-- Claim C6: on a falling edge, `hcsr04_extiHandler` updates the pair
`(hcsr04SonarPulseTravelTime, lastMeasurementReceivedAt)` exactly when
the elapsed time `timing_stop - timing_start` is strictly positive
(i.e. `timing_stop > timing_start` on the 32-bit clock readings); when
it updates, the travel time becomes that elapsed value and the receipt
timestamp the current millisecond reading, and otherwise the whole state
— in particular both fields — is unchanged, so the discarded sample can
never be observed as fresh. -/
theorem extiHandler_fallingEdge (nowUs nowMs : Nat) (s : HCSR04State)
    (hus : nowUs < U32) :
    (nowUs > s.timing_start →
      hcsr04_extiHandler false nowUs nowMs s =
        { s with lastMeasurementReceivedAt := nowMs % U32
                 hcsr04SonarPulseTravelTime := nowUs - s.timing_start }) ∧
    (nowUs ≤ s.timing_start → hcsr04_extiHandler false nowUs nowMs s = s) := by
  have hmod : nowUs % U32 = nowUs := Nat.mod_eq_of_lt hus
  constructor
  · intro h
    simp only [hcsr04_extiHandler, Bool.false_eq_true, if_false, hmod]
    rw [if_pos h]
  · intro h
    simp only [hcsr04_extiHandler, Bool.false_eq_true, if_false, hmod]
    rw [if_neg (by omega)]

/-- Witness for C6: rising edge latched 5000 µs; a falling edge at
5290 µs (elapsed 290 > 0) publishes travel time 290 and receipt time
6 ms, while a falling edge at 5000 µs (elapsed 0) changes nothing. -/
theorem extiHandler_fallingEdge_witness :
    hcsr04_extiHandler false 5290 6
      { hcsr04SonarPulseTravelTime := 0
        lastMeasurementReceivedAt := 0
        lastMeasurementStartedAt := 0
        lastCalculatedDistance := RANGEFINDER_OUT_OF_RANGE
        timing_start := 5000
        triggerPulsesEmitted := 1 } =
      { hcsr04SonarPulseTravelTime := 290
        lastMeasurementReceivedAt := 6
        lastMeasurementStartedAt := 0
        lastCalculatedDistance := RANGEFINDER_OUT_OF_RANGE
        timing_start := 5000
        triggerPulsesEmitted := 1 } := by
  have h := extiHandler_fallingEdge 5290 6
    { hcsr04SonarPulseTravelTime := 0
      lastMeasurementReceivedAt := 0
      lastMeasurementStartedAt := 0
      lastCalculatedDistance := RANGEFINDER_OUT_OF_RANGE
      timing_start := 5000
      triggerPulsesEmitted := 1 } (by decide)
  rw [h.1 (by decide)]
  decide

/-- Helper: one `hcsr04_get_distance` call maps a valid cache to a valid
returned value and a valid new cache. -/
lemma getDistance_valid (n : Nat) (s : HCSR04State)
    (h : validDistanceReading s.lastCalculatedDistance) :
    validDistanceReading (hcsr04_get_distance n s).1 ∧
    validDistanceReading (hcsr04_get_distance n s).2.lastCalculatedDistance := by
  have hd : validDistanceReading
      (if ((s.hcsr04SonarPulseTravelTime / 59 : Nat) : Int) > HCSR04_MAX_RANGE_CM then
        RANGEFINDER_OUT_OF_RANGE
      else ((s.hcsr04SonarPulseTravelTime / 59 : Nat) : Int)) := by
    split
    · exact Or.inr (Or.inl rfl)
    · refine Or.inl ⟨Int.natCast_nonneg _, ?_⟩
      simp only [HCSR04_MAX_RANGE_CM] at *
      omega
  unfold hcsr04_get_distance
  dsimp only
  split
  · exact ⟨hd, hd⟩
  · split
    · exact ⟨Or.inr (Or.inr rfl), Or.inr (Or.inr rfl)⟩
    · exact ⟨h, h⟩

/-- Helper: every reachable state keeps a valid cached distance. -/
lemma reachable_cache_valid (s : HCSR04State) (h : Reachable s) :
    validDistanceReading s.lastCalculatedDistance := by
  induction h with
  | init => exact Or.inr (Or.inl rfl)
  | start s n _ ih =>
      unfold hcsr04_start_reading
      dsimp only
      split
      · exact ih
      · exact ih
  | exti s e us ms _ ih =>
      unfold hcsr04_extiHandler
      split
      · exact ih
      · dsimp only
        split
        · exact ih
        · exact ih
  | read s n _ ih => exact (getDistance_valid n s ih).2

/-- Claim C8: in every reachable driver state, any call to
`hcsr04_get_distance` returns either a centimetre value in `[0, 400]`
or one of the two sentinels — never a negative non-sentinel value and
never a value above 400. -/
theorem getDistance_range_invariant (s : HCSR04State) (h : Reachable s) (n : Nat) :
    validDistanceReading (hcsr04_get_distance n s).1 :=
  (getDistance_valid n s (reachable_cache_valid s h)).1

/-- Witness for C8: the initial state is reachable, and a read there at
100 ms yields a valid distance reading. -/
theorem getDistance_range_invariant_witness :
    validDistanceReading (hcsr04_get_distance 100 initialState).1 :=
  getDistance_range_invariant initialState Reachable.init 100

/-- Claim C9: `hcsr04_init` changes no state; in the initial state the
trigger and measurement timestamps and the travel time are zero and the
cache holds one of the two failure-equivalent sentinels, and every
`hcsr04_get_distance` call made before any measurement returns a
sentinel, never an in-range fabricated distance. -/
theorem init_noop_initial_sentinel :
    (∀ s : HCSR04State, hcsr04_init s = s) ∧
    initialState.lastMeasurementStartedAt = 0 ∧
    initialState.lastMeasurementReceivedAt = 0 ∧
    initialState.hcsr04SonarPulseTravelTime = 0 ∧
    (initialState.lastCalculatedDistance = RANGEFINDER_OUT_OF_RANGE ∨
      initialState.lastCalculatedDistance = RANGEFINDER_HARDWARE_FAILURE) ∧
    (∀ n : Nat, (hcsr04_get_distance n initialState).1 = RANGEFINDER_OUT_OF_RANGE ∨
      (hcsr04_get_distance n initialState).1 = RANGEFINDER_HARDWARE_FAILURE) := by
  refine ⟨fun s => rfl, rfl, rfl, rfl, Or.inl rfl, fun n => ?_⟩
  have h1 : ¬ (initialState.lastMeasurementReceivedAt > initialState.lastMeasurementStartedAt) :=
    by decide
  simp only [hcsr04_get_distance, if_neg h1]
  split
  · exact Or.inr rfl
  · exact Or.inl rfl

/-- Claim C10: after any `hcsr04_get_distance` call the cache equals the
returned value, and an immediately repeated call with the same clock
reading returns the same value and leaves the state unchanged. -/
theorem getDistance_cache_idempotent (n : Nat) (s : HCSR04State) :
    (hcsr04_get_distance n s).2.lastCalculatedDistance = (hcsr04_get_distance n s).1 ∧
    hcsr04_get_distance n (hcsr04_get_distance n s).2 = hcsr04_get_distance n s := by
  by_cases h1 : s.lastMeasurementReceivedAt > s.lastMeasurementStartedAt
  · refine ⟨?_, ?_⟩ <;> simp [hcsr04_get_distance, h1]
  · by_cases h2 : (n % U32 + U32 - s.lastMeasurementStartedAt) % U32 >
        HCSR04_MinimumFiringIntervalMs
    · refine ⟨?_, ?_⟩ <;> simp [hcsr04_get_distance, h1, h2]
    · refine ⟨?_, ?_⟩ <;> simp [hcsr04_get_distance, h1, h2]
